import Mathlib

/-!
Verification of the RansomMon ransomware-monitoring application
(`RansomMon_2.py`): a shallow embedding of its data model and of the
operations the specification talks about, together with theorems that
settle each specification claim.

Conventions of the embedding:
* Python strings are Lean `String`s; `str.lower()` is `pyLower`
  (per-character lowercasing), `needle in haystack` is `pyIn`
  (substring containment over the character lists), `str.strip()` is
  `pyStrip` (trimming ASCII whitespace at both ends).
* A Python dict field read `d.get(k)` on an optional field is an
  `Option` value; `d.get(k, default)` is `Option.getD`.
* `uuid.uuid4()` calls are modelled by a generator `gen : Nat → String`
  together with a counter threaded through the computation, consumed in
  the order the Python code evaluates the calls.
* Dates are compared through their proleptic-Gregorian day ordinal
  (an `Int`); `datetime.strptime(s, "%Y-%m-%d").date()` is `parseDate`,
  which accepts exactly the strings CPython accepts for that format.
-/

namespace RansomMon

/-! ## Definitions -/

/-- Python `str.lower()`: lowercase every character. -/
def pyLower (s : String) : String := ⟨s.data.map Char.toLower⟩

/-- Python `needle in haystack` on strings: substring containment. -/
def pyIn (needle haystack : String) : Bool :=
  decide (needle.data <:+: haystack.data)

/-- Characters stripped by Python `str.strip()` (ASCII whitespace). -/
def pyWhitespace (c : Char) : Bool :=
  c == ' ' || c == '\t' || c == '\n' || c == '\r' || c == '\x0b' || c == '\x0c'

/-- Python `str.strip()`: remove leading and trailing whitespace. -/
def pyStrip (s : String) : String :=
  ⟨((s.data.dropWhile pyWhitespace).reverse.dropWhile pyWhitespace).reverse⟩

/-- The `claim_gang` field of a feed entry: absent, the literal `False`,
or a string. -/
inductive GangField where
  | missing : GangField
  | falseLit : GangField
  | strVal : String → GangField
deriving DecidableEq, Repr

/-- A feed entry as consumed by the application (`entry` dicts returned
by the ransomware.live API). A field is `none` when the key is absent. -/
structure Entry where
  victim : Option String := none
  title : Option String := none
  domain : Option String := none
  date : Option String := none
  claim_gang : GangField := .missing
  url : Option String := none
  link : Option String := none
  summary : Option String := none
deriving DecidableEq, Repr

/-- A monitored company (`companies.json` records). -/
structure Company where
  id : String
  name : String
  description : String
  keywords : List String
deriving DecidableEq, Repr

/-- The `api_data` snapshot stored inside an alert. -/
structure ApiData where
  victim_name_api : String
  article_title_api : String
  domain_api : String
  display_victim_name : String
  date : String
  group_name : String
  source_url : String
  internal_link : String
  summary : String
deriving DecidableEq, Repr

/-- An alert record (`alerts.json` records). -/
structure Alert where
  id : String
  company_id : String
  company_name : String
  matched_keyword : String
  api_entry_id : String
  api_data : ApiData
  status : String
  timestamp : String
deriving DecidableEq, Repr

/-!
### The match test (`check_api_page`, lines 290-300)

```
victim_name_api = entry.get("victim", "").lower()
article_title_api = entry.get("title", "").lower()
domain_api = entry.get("domain", "").lower()
match_found_in_victim = keyword in victim_name_api if victim_name_api else False
match_found_in_title = keyword in article_title_api if article_title_api else False
match_found_in_domain = keyword in domain_api if domain_api else False
...
if match_found_in_victim or match_found_in_title or match_found_in_domain:
```
-/

/-- The per-entry keyword match test. -/
def matchEntry (keyword : String) (e : Entry) : Bool :=
  let victim_name_api := pyLower (e.victim.getD "")
  let article_title_api := pyLower (e.title.getD "")
  let domain_api := pyLower (e.domain.getD "")
  let match_found_in_victim := if victim_name_api ≠ "" then pyIn keyword victim_name_api else false
  let match_found_in_title := if article_title_api ≠ "" then pyIn keyword article_title_api else false
  let match_found_in_domain := if domain_api ≠ "" then pyIn keyword domain_api else false
  match_found_in_victim || match_found_in_title || match_found_in_domain

/-!
### Dates

`datetime.strptime(s, "%Y-%m-%d").date()` accepts exactly: four digits,
a dash, a one-or-two-digit month in 1..12, a dash, a one-or-two-digit
day, nothing else; constructing the date then validates the year
(≥ 1) and the day against the month length.  Dates are represented by
their proleptic-Gregorian day ordinal so that Python date comparison
and `date - timedelta(days=w)` become `Int` comparison and subtraction.
-/

/-- Numeric value of a digit string. -/
def natOfDigits (ds : List Char) : Nat :=
  ds.foldl (fun n c => n * 10 + (c.toNat - 48)) 0

/-- Gregorian leap-year rule. -/
def isLeap (y : Nat) : Bool :=
  (y % 4 == 0 && y % 100 != 0) || (y % 400 == 0)

/-- Length of a month. -/
def daysInMonth (y m : Nat) : Nat :=
  if m == 2 then (if isLeap y then 29 else 28)
  else if m == 4 || m == 6 || m == 9 || m == 11 then 30
  else 31

/-- Day ordinal of a civil date (days since 1970-01-01, proleptic
Gregorian); the standard days-from-civil algorithm. -/
def daysFromCivil (y m d : Nat) : Int :=
  let yAdj : Int := if m ≤ 2 then (y : Int) - 1 else (y : Int)
  let era : Int := Int.ediv yAdj 400
  let yoe : Int := yAdj - era * 400
  let mp : Int := ((m : Int) + 9) % 12
  let doy : Int := Int.ediv (153 * mp + 2) 5 + (d : Int) - 1
  let doe : Int := yoe * 365 + Int.ediv yoe 4 - Int.ediv yoe 100 + doy
  era * 146097 + doe - 719468

/-- `datetime.strptime(s, "%Y-%m-%d").date()` as a day ordinal; `none`
when CPython would raise `ValueError`. -/
def parseDate (s : String) : Option Int :=
  match s.data.span Char.isDigit with
  | (ys, rest1) =>
    if ys.length = 4 then
      match rest1 with
      | '-' :: rest2 =>
        match rest2.span Char.isDigit with
        | (ms, rest3) =>
          if 1 ≤ ms.length ∧ ms.length ≤ 2 then
            match rest3 with
            | '-' :: rest4 =>
              match rest4.span Char.isDigit with
              | (ds, rest5) =>
                if (1 ≤ ds.length ∧ ds.length ≤ 2) ∧ rest5 = [] then
                  let y := natOfDigits ys
                  let m := natOfDigits ms
                  let d := natOfDigits ds
                  if 1 ≤ y ∧ (1 ≤ m ∧ m ≤ 12) ∧ (1 ≤ d ∧ d ≤ daysInMonth y m) then
                    some (daysFromCivil y m d)
                  else none
                else none
            | _ => none
          else none
      | _ => none
    else none

/-!
### The two recency filters

Fetch path (`check_api_page`, lines 273-287):
```
api_entry_date_str = entry.get("date")
if not api_entry_date_str or api_entry_date_str == "N/A":
    if days_to_filter_for_new_and_display is not None:
        continue
else:
    try:
        api_entry_date_obj = datetime.strptime(api_entry_date_str, "%Y-%m-%d").date()
        if days_to_filter_for_new_and_display is not None:
            cutoff_date = date.today() - pd.Timedelta(days=days_to_filter_for_new_and_display)
            if api_entry_date_obj < cutoff_date:
                continue
    except ValueError:
        if days_to_filter_for_new_and_display is not None:
             continue
```
Display path (lines 400-411) performs the same checks but only when a
window is active and treats a parse failure as `continue`.
-/

/-- `true` when the fetch pipeline skips the entry on date grounds. -/
def fetchDateSkip (dateField : Option String) (window : Option Nat) (today : Int) : Bool :=
  match dateField with
  | none => window.isSome
  | some s =>
    if s = "" ∨ s = "N/A" then window.isSome
    else
      match parseDate s with
      | some d =>
        match window with
        | some w => decide (d < today - (w : Int))
        | none => false
      | none => window.isSome

/-- `true` when the alert-display loop skips the alert on date grounds. -/
def displayDateSkip (dateField : Option String) (window : Option Nat) (today : Int) : Bool :=
  match window with
  | none => false
  | some w =>
    match dateField with
    | none => true
    | some s =>
      if s = "" ∨ s = "N/A" then true
      else
        match parseDate s with
        | some d => decide (d < today - (w : Int))
        | none => true

/-!
### The fetch-match-deduplicate-persist pipeline (lines 269-347)

For every company, for each of its keywords, for every feed entry (in
that nested order): date filter, match test, dedup key
`entry.get("link", str(uuid.uuid4()))`, duplicate scan over the live
alert list, and append of the materialized alert.  `save_data` runs
only when `new_alerts_found > 0`.
-/

/-- Normalization of `claim_gang` (lines 313-317): literal `False`
becomes `"N/A"`, absent or falsy becomes `"Unknown"`. -/
def normalizeGang : GangField → String
  | .falseLit => "N/A"
  | .missing => "Unknown"
  | .strVal s => if s = "" then "Unknown" else s

/-- The `api_data` snapshot recorded in a new alert (lines 325-335). -/
def mkApiData (e : Entry) : ApiData where
  victim_name_api := e.victim.getD "N/A"
  article_title_api := e.title.getD "N/A"
  domain_api := e.domain.getD "N/A"
  display_victim_name := e.victim.getD (e.title.getD "N/A")
  date := e.date.getD "N/A"
  group_name := normalizeGang e.claim_gang
  source_url := e.url.getD "N/A"
  internal_link := e.link.getD "N/A"
  summary := e.summary.getD "N/A"

/-- State threaded through the matching loops: the live alert list, the
uuid-supply counter, and `new_alerts_found`. -/
structure PipeState where
  alerts : List Alert
  ctr : Nat
  newCount : Nat
deriving DecidableEq, Repr

/-- The dedup key (line 301): `entry.get("link", str(uuid.uuid4()))`. -/
def entryIdentifier (gen : Nat → String) (e : Entry) (c : Nat) : String :=
  e.link.getD (gen c)

/-- The duplicate scan (lines 303-309). -/
def alertExists (alerts : List Alert) (cid kw ident : String) : Bool :=
  alerts.any (fun a =>
    a.company_id == cid && a.matched_keyword == kw && a.api_entry_id == ident)

/-- The alert materialized at lines 319-338; `ctr` is the counter value
at which the dedup-key uuid was drawn, `ctr + 1` supplies the alert id. -/
def mkNewAlert (gen : Nat → String) (ctr : Nat) (c : Company) (kw : String)
    (e : Entry) (now : String) : Alert where
  id := gen (ctr + 1)
  company_id := c.id
  company_name := c.name
  matched_keyword := kw
  api_entry_id := entryIdentifier gen e ctr
  api_data := mkApiData e
  status := "Open"
  timestamp := now

/-- One iteration of the innermost loop body (lines 273-340) for a fixed
company and keyword. -/
def processTriple (gen : Nat → String) (window : Option Nat) (today : Int)
    (now : String) (c : Company) (kw : String) (st : PipeState) (e : Entry) :
    PipeState :=
  if fetchDateSkip e.date window today then st
  else if matchEntry kw e then
    if alertExists st.alerts c.id kw (entryIdentifier gen e st.ctr) then
      { st with ctr := st.ctr + 1 }
    else
      { alerts := st.alerts ++ [mkNewAlert gen st.ctr c kw e now],
        ctr := st.ctr + 2,
        newCount := st.newCount + 1 }
  else st

/-- The full triple-nested matching pass (lines 270-340). -/
def runPipeline (gen : Nat → String) (window : Option Nat) (today : Int)
    (now : String) (companies : List Company) (entries : List Entry)
    (st : PipeState) : PipeState :=
  companies.foldl (fun st1 c =>
    c.keywords.foldl (fun st2 kw =>
      entries.foldl (processTriple gen window today now c kw) st2) st1) st

/-- The fetch-button handler after a successful fetch: run the pipeline
from a fresh `new_alerts_found = 0` and save the alerts file only when
`new_alerts_found > 0` (lines 342-347).  The boolean records whether
`save_data(ALERTS_FILE, ...)` ran. -/
def fetchAndMatch (gen : Nat → String) (window : Option Nat) (today : Int)
    (now : String) (companies : List Company) (entries : List Entry)
    (alerts : List Alert) (ctr0 : Nat) : PipeState × Bool :=
  let st1 := runPipeline gen window today now companies entries
    { alerts := alerts, ctr := ctr0, newCount := 0 }
  (st1, decide (0 < st1.newCount))

/-- The pipeline iterated over the same feed snapshot a number of times
(re-fetch of an unchanged feed), the uuid supply threading on. -/
def iterRuns (gen : Nat → String) (window : Option Nat) (today : Int)
    (now : String) (companies : List Company) (entries : List Entry) :
    Nat → PipeState → PipeState
  | 0, st => st
  | n + 1, st =>
    iterRuns gen window today now companies entries n
      (runPipeline gen window today now companies entries st)

/-- Two alerts agree on the deduplication key. -/
def sameTriple (a b : Alert) : Prop :=
  a.company_id = b.company_id ∧ a.matched_keyword = b.matched_keyword ∧
    a.api_entry_id = b.api_entry_id

/-- No two alerts of the collection share a deduplication triple. -/
def NodupTriples (alerts : List Alert) : Prop :=
  alerts.Pairwise (fun a b => ¬ sameTriple a b)

/-- `st₂` extends `st₁` by appending some alerts, `newCount` advancing
by exactly the number appended. -/
def PipeExtends (st1 st2 : PipeState) : Prop :=
  ∃ app : List Alert,
    st2.alerts = st1.alerts ++ app ∧ st2.newCount = st1.newCount + app.length

/-- The collection `A` already covers the triple `(cid, kw, e)`: if the
entry has a stable link, passes the date filter and matches the
keyword, then an alert with the corresponding dedup triple is present
(so a later run will not re-materialize it). -/
def covers (window : Option Nat) (today : Int) (A : List Alert)
    (cid kw : String) (e : Entry) : Prop :=
  ∀ l, e.link = some l → fetchDateSkip e.date window today = false →
    matchEntry kw e = true → alertExists A cid kw l = true

/-!
### Bulk status update (lines 446-462)

```
updated_count = 0
for alert_idx, alert_item in enumerate(st.session_state.alerts):
    if alert_item['id'] in selected_ids_for_update:
        st.session_state.alerts[alert_idx]['status'] = new_bulk_status
        updated_count += 1
```
-/

/-- The bulk status-update loop over the alert collection: the updated
collection and `updated_count`. -/
def bulkSetStatus (alerts : List Alert) (selectedIds : List String)
    (newStatus : String) : List Alert × Nat :=
  alerts.foldl
    (fun acc a =>
      if selectedIds.contains a.id then
        (acc.1 ++ [{ a with status := newStatus }], acc.2 + 1)
      else (acc.1 ++ [a], acc.2))
    ([], 0)

/-!
### Company removal (`manage_companies_page`, lines 214-227)

```
st.session_state.companies.pop(i)
save_data(COMPANIES_FILE, st.session_state.companies)
st.session_state.alerts = [
    alert for alert in st.session_state.alerts
    if alert['company_id'] != company['id']
]
st.session_state.selected_alerts = {
    k: v for k, v in st.session_state.selected_alerts.items()
    if not any(a['id'] == k and a['company_id'] == company['id'] for a in st.session_state.alerts)
}
save_data(ALERTS_FILE, st.session_state.alerts)
```
Note that the selection-state comprehension runs after
`st.session_state.alerts` has already been reassigned to the filtered
list, so its `any(...)` scans the post-deletion alerts.
-/

/-- The session state touched by company removal: the registry, the
alert collection and the selection map (an association list mirroring
the `selected_alerts` dict). -/
structure AppState where
  companies : List Company
  alerts : List Alert
  selected : List (String × Bool)
deriving DecidableEq, Repr

/-- The `Remove` button handler for the company at display index `i`. -/
def removeCompanyAt (st : AppState) (i : Nat) : AppState :=
  match st.companies[i]? with
  | none => st
  | some comp =>
    let companies2 := st.companies.eraseIdx i
    let alerts2 := st.alerts.filter (fun a => a.company_id ≠ comp.id)
    let selected2 := st.selected.filter (fun kv =>
      ! alerts2.any (fun a => a.id == kv.1 && a.company_id == comp.id))
    { companies := companies2, alerts := alerts2, selected := selected2 }

/-!
### Company creation (`manage_companies_page`, lines 70-102)

Manual keywords: `[kw.strip().lower() for kw in keywords_str.split(',') if kw.strip()]`;
CSV keywords: `[str(kw).strip().lower() for kw in df.iloc[:, 0].tolist() if str(kw).strip()]`
(the first CSV column arrives here as a list of strings);
merged: `sorted(list(set(manual_keywords + csv_keywords)))`.
-/

/-- Strip-lower-filter applied to each raw keyword source item. -/
def cleanKeywords (raw : List String) : List String :=
  raw.filterMap (fun kw =>
    if pyStrip kw = "" then none else some (pyLower (pyStrip kw)))

/-- The manual comma-separated keyword field. -/
def splitKeywords (s : String) : List String :=
  cleanKeywords (s.split (fun c => c = ','))

/-- `sorted(list(set(l)))`. -/
def sortedDedup (l : List String) : List String :=
  List.insertionSort (fun a b => a ≤ b) l.dedup

/-- The merged keyword set of the add-company form. -/
def mergedKeywords (manualKw : String) (csvKw : List String) : List String :=
  sortedDedup (splitKeywords manualKw ++ cleanKeywords csvKw)

/-- Result of the add-company form: the resulting registry, whether the
company was added (`ok = false` is a rejected submission), and whether
`save_data(COMPANIES_FILE, ...)` ran. -/
structure AddResult where
  companies : List Company
  ok : Bool
  saved : Bool
deriving DecidableEq, Repr

/-- The `Add Company` form handler. -/
def addCompany (companies : List Company) (genId : String)
    (name description manualKw : String) (csvKw : List String) : AddResult :=
  if name = "" then { companies := companies, ok := false, saved := false }
  else
    let all_keywords := mergedKeywords manualKw csvKw
    if all_keywords = [] then { companies := companies, ok := false, saved := false }
    else if companies.any (fun c => pyLower c.name == pyLower name) then
      { companies := companies, ok := false, saved := false }
    else
      { companies := companies ++
          [{ id := genId, name := name, description := description,
             keywords := all_keywords }],
        ok := true, saved := true }

/-!
### The alert display sort (lines 381-384)

```
status_order = {"Open": 0, "In Progress": 1, "Complete": 2, "False Positive": 3}
sorted_alerts_all = sorted(st.session_state.alerts, key=lambda x: x.get('timestamp', ''), reverse=True)
sorted_alerts_all = sorted(sorted_alerts_all, key=lambda x: status_order.get(x['status'], 99))
```
Python `sorted` is stable; the two stable passes are modelled by
`List.insertionSort`, which is likewise stable.
-/

/-- `status_order.get(s, 99)`. -/
def status_order (s : String) : Nat :=
  if s = "Open" then 0
  else if s = "In Progress" then 1
  else if s = "Complete" then 2
  else if s = "False Positive" then 3
  else 99

/-- Comparator of the second (status) sorting pass. -/
def statusLe (a b : Alert) : Prop :=
  status_order a.status ≤ status_order b.status

/-- Comparator of the first (timestamp-descending) sorting pass. -/
def timestampGe (a b : Alert) : Prop :=
  b.timestamp ≤ a.timestamp

instance : DecidableRel statusLe := fun a b =>
  inferInstanceAs (Decidable (status_order a.status ≤ status_order b.status))

instance : DecidableRel timestampGe := fun a b =>
  inferInstanceAs (Decidable (b.timestamp ≤ a.timestamp))

instance : IsTotal Alert timestampGe :=
  ⟨fun a b => (le_total b.timestamp a.timestamp).imp id id⟩

instance : IsTrans Alert timestampGe :=
  ⟨fun _ _ _ hab hbc => le_trans hbc hab⟩

/-- The displayed sort: stable sort by timestamp descending, then
stable sort by status rank. -/
def sortedAlertsAll (alerts : List Alert) : List Alert :=
  List.insertionSort statusLe (List.insertionSort timestampGe alerts)

/-- The display order the specification describes: primarily status
rank ascending, and timestamp descending within equal rank. -/
def alertDisplayLe (a b : Alert) : Prop :=
  status_order a.status < status_order b.status ∨
    (status_order a.status = status_order b.status ∧ b.timestamp ≤ a.timestamp)

/-!
### Fetch failure handling (lines 260-375)

The network call, `raise_for_status()` and `response.json()` all run
before the matching loops touch any state; each `except` branch renders
one message via `st.error` and falls through (no re-raise, no exit).
-/

/-- The fetch error taxonomy of the `except` chain: HTTP error with
status code and body preview, timeout, other request exception, and
JSON decode error (with the response status/text when a response
object is available). -/
inductive FetchErr where
  | httpError (statusCode : Nat) (bodyPreview : String)
  | timeout
  | requestException (msg : String)
  | jsonDecodeError (msg : String) (response : Option (Nat × String))
deriving DecidableEq, Repr

/-- The response-dependent tail of the JSON-decode-error message
(lines 366-372). -/
def jsonRespText : Option (Nat × String) → String
  | some (code, text) =>
    "Status Code: " ++ toString code ++
      ". Response text (first 500 chars): " ++ text
  | none => "Response object was not available for inspection."

/-- The message each `except` branch displays (lines 349-375). -/
def renderFetchErr : FetchErr → String
  | .httpError code body =>
    "HTTP error occurred while fetching data from API. Status Code: " ++
      toString code ++ ". Response text (first 500 chars): " ++ body
  | .timeout =>
    "The request to the ransomware.live API timed out. The API might be slow or temporarily unavailable. Please try again later."
  | .requestException m =>
    "Error fetching data from API (RequestException): " ++ m
  | .jsonDecodeError m resp =>
    "Error decoding API response (JSONDecodeError): " ++ m ++ ". " ++
      jsonRespText resp

/-- The whole fetch-button handler: on a fetch failure the state is
untouched and the rendered message is displayed; on success the
matching pipeline runs. -/
def handleFetch (gen : Nat → String) (window : Option Nat) (today : Int)
    (now : String) (companies : List Company) (alerts : List Alert)
    (ctr0 : Nat) (fetchResult : Except FetchErr (List Entry)) :
    List Company × List Alert × Option String :=
  match fetchResult with
  | .error e => (companies, alerts, some (renderFetchErr e))
  | .ok entries =>
    let st1 := runPipeline gen window today now companies entries
      { alerts := alerts, ctr := ctr0, newCount := 0 }
    (companies, st1.alerts, none)

/-!
### Concrete fixtures

Small closed values used to evaluate the embedded operations on
concrete inputs (for counterexamples and witnesses).
-/

/-- A deterministic stand-in for the `uuid.uuid4()` supply. -/
def demoGen (n : Nat) : String := "uuid-" ++ toString n

/-- A company monitoring the keyword `"acme"`. -/
def demoCompany : Company :=
  { id := "c1", name := "Acme", description := "", keywords := ["acme"] }

/-- A feed entry whose `link` key is present but holds the empty string. -/
def demoEntryEmptyLink : Entry :=
  { victim := some "Acme Corp", link := some "" }

/-- A feed entry with a stable link. -/
def demoEntryLinked : Entry :=
  { victim := some "Acme Corp", link := some "L1" }

/-- An alert belonging to `demoCompany`, referenced by the selection
map in the cascade-delete scenario. -/
def demoAlertA1 : Alert :=
  { id := "a1", company_id := "c1", company_name := "Acme",
    matched_keyword := "acme", api_entry_id := "L1",
    api_data := mkApiData demoEntryLinked, status := "Open",
    timestamp := "t0" }

/-! ## Theorems -/

theorem pyLower_eq_empty_iff (s : String) : pyLower s = "" ↔ s = "" := by
  cases s with
  | mk l =>
    simp [pyLower, String.ext_iff]

theorem pyIn_eq_true_iff (n h : String) : pyIn n h = true ↔ n.data <:+: h.data := by
  simp [pyIn]

theorem fieldTest_iff (kw f : String) :
    (if pyLower f ≠ "" then pyIn kw (pyLower f) else false) = true ↔
      (f ≠ "" ∧ kw.data <:+: (pyLower f).data) := by
  by_cases hf : f = ""
  · subst hf
    simp [pyLower]
  · rw [if_pos ((pyLower_eq_empty_iff f).not.mpr hf)]
    simp [pyIn_eq_true_iff, hf]

/-- **C5** — the match test succeeds iff the (lower-cased) keyword is a
substring of the lower-casing of at least one of the entry fields
`victim`, `title`, `domain`, where an absent or empty field never
contributes a match. -/
theorem matchEntry_characterization (kw : String) (e : Entry) :
    matchEntry kw e = true ↔
      ((e.victim.getD "" ≠ "" ∧ kw.data <:+: (pyLower (e.victim.getD "")).data) ∨
       (e.title.getD "" ≠ "" ∧ kw.data <:+: (pyLower (e.title.getD "")).data) ∨
       (e.domain.getD "" ≠ "" ∧ kw.data <:+: (pyLower (e.domain.getD "")).data)) := by
  simp only [matchEntry, Bool.or_eq_true, fieldTest_iff, or_assoc]

/-- **C4** — under a bounded window `W` both date filters exclude exactly
the entries/alerts whose date is missing, `"N/A"`, unparseable, or
strictly before `today - W`; with window `None` nothing is excluded on
date grounds. -/
theorem dateFilter_characterization (df : Option String) (W : Nat) (today : Int) :
    (fetchDateSkip df (some W) today = true ↔
      (df = none ∨ ∃ s, df = some s ∧
        (s = "N/A" ∨ parseDate s = none ∨
          ∃ d, parseDate s = some d ∧ d < today - (W : Int)))) ∧
    (displayDateSkip df (some W) today = true ↔
      (df = none ∨ ∃ s, df = some s ∧
        (s = "N/A" ∨ parseDate s = none ∨
          ∃ d, parseDate s = some d ∧ d < today - (W : Int)))) ∧
    fetchDateSkip df none today = false ∧
    displayDateSkip df none today = false := by
  refine ⟨?_, ?_, ?_, ?_⟩
  · cases df with
    | none => simp [fetchDateSkip]
    | some s =>
      by_cases hs : s = "" ∨ s = "N/A"
      · have hp : parseDate s = none := by
          rcases hs with h | h <;> subst h <;> rfl
        simp [fetchDateSkip, hs, hp]
      · cases hp : parseDate s with
        | none => simp [fetchDateSkip, hs, hp]
        | some d =>
          simp only [fetchDateSkip, if_neg hs, hp, decide_eq_true_eq,
            Option.some.injEq]
          constructor
          · intro h
            exact Or.inr ⟨s, rfl, Or.inr (Or.inr ⟨d, hp, h⟩)⟩
          · rintro (h | ⟨t, ht, h | h | ⟨d2, hd2, hlt⟩⟩)
            · exact absurd h (by simp)
            · cases ht
              exact absurd h (not_or.mp hs).2
            · cases ht
              exact absurd hp (by simp [h])
            · cases ht
              rw [hp] at hd2
              cases hd2
              exact hlt
  · cases df with
    | none => simp [displayDateSkip]
    | some s =>
      by_cases hs : s = "" ∨ s = "N/A"
      · have hp : parseDate s = none := by
          rcases hs with h | h <;> subst h <;> rfl
        simp [displayDateSkip, hs, hp]
      · cases hp : parseDate s with
        | none => simp [displayDateSkip, hs, hp]
        | some d =>
          simp only [displayDateSkip, if_neg hs, hp, decide_eq_true_eq,
            Option.some.injEq]
          constructor
          · intro h
            exact Or.inr ⟨s, rfl, Or.inr (Or.inr ⟨d, hp, h⟩)⟩
          · rintro (h | ⟨t, ht, h | h | ⟨d2, hd2, hlt⟩⟩)
            · exact absurd h (by simp)
            · cases ht
              exact absurd h (not_or.mp hs).2
            · cases ht
              exact absurd hp (by simp [h])
            · cases ht
              rw [hp] at hd2
              cases hd2
              exact hlt
  · cases df with
    | none => rfl
    | some s =>
      by_cases hs : s = "" ∨ s = "N/A"
      · simp [fetchDateSkip, hs]
      · cases hp : parseDate s with
        | none => simp [fetchDateSkip, hs, hp]
        | some d => simp [fetchDateSkip, hs, hp]
  · rfl

/-! ### Pipeline bookkeeping lemmas -/

theorem foldl_preserves {β : Type} (f : PipeState → β → PipeState)
    (P : PipeState → Prop) (hf : ∀ st b, P st → P (f st b)) :
    ∀ (l : List β) (st : PipeState), P st → P (l.foldl f st)
  | [], _, h => h
  | b :: l, st, h => foldl_preserves f P hf l (f st b) (hf st b h)

theorem foldl_preserves_mem {β : Type} (f : PipeState → β → PipeState)
    (P : PipeState → Prop) :
    ∀ (l : List β), (∀ st b, b ∈ l → P st → P (f st b)) →
      ∀ st, P st → P (l.foldl f st)
  | [], _, _, h => h
  | b :: l, hf, st, h =>
    foldl_preserves_mem f P l
      (fun st2 b2 hb2 => hf st2 b2 (List.mem_cons_of_mem _ hb2))
      (f st b) (hf st b (List.mem_cons_self _ _) h)

theorem pipeExtends_refl (st : PipeState) : PipeExtends st st :=
  ⟨[], by simp⟩

theorem pipeExtends_trans {s t u : PipeState} (h1 : PipeExtends s t)
    (h2 : PipeExtends t u) : PipeExtends s u := by
  obtain ⟨a1, ha1, hc1⟩ := h1
  obtain ⟨a2, ha2, hc2⟩ := h2
  exact ⟨a1 ++ a2, by simp [ha2, ha1], by simp [hc2, hc1]; omega⟩

theorem foldl_extends {β : Type} (f : PipeState → β → PipeState)
    (hf : ∀ st b, PipeExtends st (f st b)) :
    ∀ (l : List β) (st : PipeState), PipeExtends st (l.foldl f st)
  | [], st => pipeExtends_refl st
  | b :: l, st => pipeExtends_trans (hf st b) (foldl_extends f hf l (f st b))

theorem processTriple_extends (gen : Nat → String) (window : Option Nat)
    (today : Int) (now : String) (c : Company) (kw : String)
    (st : PipeState) (e : Entry) :
    PipeExtends st (processTriple gen window today now c kw st e) := by
  unfold processTriple
  split
  · exact pipeExtends_refl st
  · split
    · split
      · exact ⟨[], by simp⟩
      · exact ⟨[mkNewAlert gen st.ctr c kw e now], rfl, by simp⟩
    · exact pipeExtends_refl st

theorem runPipeline_extends (gen : Nat → String) (window : Option Nat)
    (today : Int) (now : String) (companies : List Company)
    (entries : List Entry) (st : PipeState) :
    PipeExtends st (runPipeline gen window today now companies entries st) := by
  unfold runPipeline
  refine foldl_extends _ ?_ companies st
  intro st1 c
  refine foldl_extends _ ?_ c.keywords st1
  intro st2 kw
  refine foldl_extends _ ?_ entries st2
  intro st3 e
  exact processTriple_extends gen window today now c kw st3 e

/-- **C10** — the alerts file is saved by the fetch handler iff the run
materialized at least one new alert, i.e. the save is skipped exactly
when the alert collection is left as it was. -/
theorem save_iff_new_alerts (gen : Nat → String) (window : Option Nat)
    (today : Int) (now : String) (companies : List Company)
    (entries : List Entry) (alerts : List Alert) (ctr0 : Nat) :
    ((fetchAndMatch gen window today now companies entries alerts ctr0).2 = false ↔
      (fetchAndMatch gen window today now companies entries alerts ctr0).1.alerts = alerts) := by
  obtain ⟨app, halerts, hcount⟩ :=
    runPipeline_extends gen window today now companies entries
      { alerts := alerts, ctr := ctr0, newCount := 0 }
  simp only [fetchAndMatch, halerts, hcount, decide_eq_false_iff_not, not_lt,
    Nat.le_zero, Nat.zero_add]
  constructor
  · intro h
    rw [List.length_eq_zero.mp h]
    simp
  · intro h
    have : (alerts ++ app).length = alerts.length := by rw [h]
    simp only [List.length_append] at this
    omega

theorem processTriple_nodup (gen : Nat → String) (window : Option Nat)
    (today : Int) (now : String) (c : Company) (kw : String)
    (st : PipeState) (e : Entry) (h : NodupTriples st.alerts) :
    NodupTriples (processTriple gen window today now c kw st e).alerts := by
  unfold processTriple
  split
  · exact h
  · split
    · split
      · exact h
      · rename_i hskip hmatch hex
        rw [NodupTriples, List.pairwise_append]
        refine ⟨h, List.pairwise_singleton _ _, ?_⟩
        intro a ha b hb
        simp only [List.mem_singleton] at hb
        subst hb
        rintro ⟨h1, h2, h3⟩
        apply hex
        rw [alertExists, List.any_eq_true]
        refine ⟨a, ha, ?_⟩
        simp only [mkNewAlert] at h1 h2 h3
        simp [h1, h2, h3]
    · exact h

theorem runPipeline_nodup (gen : Nat → String) (window : Option Nat)
    (today : Int) (now : String) (companies : List Company)
    (entries : List Entry) (st : PipeState) (h : NodupTriples st.alerts) :
    NodupTriples (runPipeline gen window today now companies entries st).alerts := by
  unfold runPipeline
  refine foldl_preserves _ (fun s => NodupTriples s.alerts) ?_ companies st h
  intro st1 c h1
  refine foldl_preserves _ (fun s => NodupTriples s.alerts) ?_ c.keywords st1 h1
  intro st2 kw h2
  refine foldl_preserves _ (fun s => NodupTriples s.alerts) ?_ entries st2 h2
  intro st3 e h3
  exact processTriple_nodup gen window today now c kw st3 e h3

theorem alertExists_append (A app : List Alert) (cid kw l : String)
    (h : alertExists A cid kw l = true) :
    alertExists (A ++ app) cid kw l = true := by
  rw [alertExists, List.any_append]
  rw [alertExists] at h
  rw [h]
  rfl

theorem covers_of_pipeExtends {st1 st2 : PipeState} (window : Option Nat)
    (today : Int) (cid kw : String) (e : Entry)
    (hext : PipeExtends st1 st2)
    (h : covers window today st1.alerts cid kw e) :
    covers window today st2.alerts cid kw e := by
  obtain ⟨app, happ, _⟩ := hext
  intro l hl hskip hmatch
  rw [happ]
  exact alertExists_append _ _ _ _ _ (h l hl hskip hmatch)

theorem processTriple_covers_self (gen : Nat → String) (window : Option Nat)
    (today : Int) (now : String) (c : Company) (kw : String)
    (st : PipeState) (e : Entry) :
    covers window today (processTriple gen window today now c kw st e).alerts
      c.id kw e := by
  intro l hl hskip hmatch
  rw [processTriple, hskip]
  simp only [Bool.false_eq_true, if_false, hmatch, if_true]
  by_cases hex : alertExists st.alerts c.id kw (entryIdentifier gen e st.ctr) = true
  · rw [if_pos hex]
    rw [entryIdentifier, hl] at hex
    exact hex
  · rw [if_neg hex]
    show alertExists (st.alerts ++ [mkNewAlert gen st.ctr c kw e now]) _ _ _ = true
    simp only [alertExists, List.any_append, List.any_cons, List.any_nil,
      Bool.or_eq_true, List.any_eq_true, Bool.and_eq_true, beq_iff_eq]
    exact Or.inr (Or.inl (by simp [mkNewAlert, entryIdentifier, hl]))

theorem entriesFold_covers (gen : Nat → String) (window : Option Nat)
    (today : Int) (now : String) (c : Company) (kw : String) :
    ∀ (l : List Entry) (st : PipeState) (e : Entry), e ∈ l →
      covers window today
        (l.foldl (processTriple gen window today now c kw) st).alerts c.id kw e := by
  intro l
  induction l with
  | nil =>
    intro st e he
    cases he
  | cons e0 rest ih =>
    intro st e he
    rcases List.mem_cons.mp he with rfl | he2
    · refine covers_of_pipeExtends window today c.id kw e ?_
        (processTriple_covers_self gen window today now c kw st e)
      exact foldl_extends _
        (fun st2 e2 => processTriple_extends gen window today now c kw st2 e2)
        rest (processTriple gen window today now c kw st e)
    · exact ih (processTriple gen window today now c kw st e0) e he2

theorem keywordsFold_covers (gen : Nat → String) (window : Option Nat)
    (today : Int) (now : String) (c : Company) (entries : List Entry) :
    ∀ (kws : List String) (st : PipeState) (kw : String), kw ∈ kws →
      ∀ e ∈ entries,
        covers window today
          (kws.foldl (fun st2 kw2 =>
            entries.foldl (processTriple gen window today now c kw2) st2) st).alerts
          c.id kw e := by
  intro kws
  induction kws with
  | nil =>
    intro st kw hkw
    cases hkw
  | cons kw0 rest ih =>
    intro st kw hkw e he
    rcases List.mem_cons.mp hkw with rfl | hkw2
    · refine covers_of_pipeExtends window today c.id kw e ?_
        (entriesFold_covers gen window today now c kw entries st e he)
      exact foldl_extends _
        (fun st2 kw2 => foldl_extends _
          (fun st3 e3 => processTriple_extends gen window today now c kw2 st3 e3)
          entries st2)
        rest _
    · exact ih _ kw hkw2 e he

theorem runPipeline_covers (gen : Nat → String) (window : Option Nat)
    (today : Int) (now : String) (entries : List Entry) :
    ∀ (companies : List Company) (st : PipeState) (c : Company),
      c ∈ companies → ∀ kw ∈ c.keywords, ∀ e ∈ entries,
        covers window today
          (runPipeline gen window today now companies entries st).alerts
          c.id kw e := by
  intro companies
  induction companies with
  | nil =>
    intro st c hc
    cases hc
  | cons c0 rest ih =>
    intro st c hc kw hkw e he
    rcases List.mem_cons.mp hc with rfl | hc2
    · refine covers_of_pipeExtends window today c.id kw e ?_
        (keywordsFold_covers gen window today now c entries c.keywords st kw hkw e he)
      exact foldl_extends _
        (fun st2 c2 => foldl_extends _
          (fun st3 kw3 => foldl_extends _
            (fun st4 e4 => processTriple_extends gen window today now c2 kw3 st4 e4)
            entries st3)
          c2.keywords st2)
        rest _
    · exact ih _ c hc2 kw hkw e he

theorem runPipeline_noop (gen : Nat → String) (window : Option Nat)
    (today : Int) (now : String) (companies : List Company)
    (entries : List Entry) (st : PipeState)
    (hlink : ∀ e ∈ entries, e.link ≠ none)
    (hcov : ∀ c ∈ companies, ∀ kw ∈ c.keywords, ∀ e ∈ entries,
      covers window today st.alerts c.id kw e) :
    (runPipeline gen window today now companies entries st).alerts = st.alerts := by
  rw [runPipeline]
  refine foldl_preserves_mem _ (fun s => s.alerts = st.alerts) companies ?_ st rfl
  intro st1 c hc h1
  refine foldl_preserves_mem _ (fun s => s.alerts = st.alerts) c.keywords ?_ st1 h1
  intro st2 kw hkw h2
  refine foldl_preserves_mem _ (fun s => s.alerts = st.alerts) entries ?_ st2 h2
  intro st3 e he h3
  rw [processTriple]
  by_cases hskip : fetchDateSkip e.date window today = true
  · rw [if_pos hskip]
    exact h3
  · rw [if_neg hskip]
    by_cases hmatch : matchEntry kw e = true
    · rw [if_pos hmatch]
      cases hl : e.link with
      | none => exact absurd hl (hlink e he)
      | some l =>
        have hex : alertExists st3.alerts c.id kw (entryIdentifier gen e st3.ctr) = true := by
          rw [entryIdentifier, hl]
          rw [h3]
          exact hcov c hc kw hkw e he l hl (Bool.not_eq_true _ ▸ hskip) hmatch
        rw [if_pos hex]
        exact h3
    · rw [if_neg hmatch]
      exact h3

theorem runPipeline_idem (gen : Nat → String) (window : Option Nat)
    (today : Int) (now : String) (companies : List Company)
    (entries : List Entry) (st : PipeState)
    (hlink : ∀ e ∈ entries, e.link ≠ none) :
    (runPipeline gen window today now companies entries
        (runPipeline gen window today now companies entries st)).alerts =
      (runPipeline gen window today now companies entries st).alerts :=
  runPipeline_noop gen window today now companies entries _ hlink
    (fun c hc kw hkw e he =>
      runPipeline_covers gen window today now entries companies st c hc kw hkw e he)

/-- **C3** — the dedup check scans the live alert list (including alerts
appended earlier in the same run), so across any number of pipeline
runs over the same feed snapshot no two alerts ever share a
`(company_id, matched_keyword, api_entry_id)` triple; moreover, when
every entry of the snapshot carries a stable link, every run after the
first materializes nothing new. -/
theorem iterRuns_nodup_triples (gen : Nat → String) (window : Option Nat)
    (today : Int) (now : String) (companies : List Company)
    (entries : List Entry) (n : Nat) (st : PipeState)
    (h : NodupTriples st.alerts) :
    NodupTriples (iterRuns gen window today now companies entries n st).alerts ∧
      ((∀ e ∈ entries, e.link ≠ none) →
        (iterRuns gen window today now companies entries (n + 1) st).alerts =
          (runPipeline gen window today now companies entries st).alerts) := by
  constructor
  · induction n generalizing st with
    | zero => exact h
    | succ k ih =>
      exact ih _ (runPipeline_nodup gen window today now companies entries st h)
  · intro hlink
    induction n generalizing st with
    | zero => rfl
    | succ k ih =>
      show (iterRuns gen window today now companies entries (k + 1)
          (runPipeline gen window today now companies entries st)).alerts = _
      rw [ih (runPipeline gen window today now companies entries st)
        (runPipeline_nodup gen window today now companies entries st h)]
      exact runPipeline_idem gen window today now companies entries st hlink

/-- **C2** (amended) — every alert present after a pipeline run was either already there or
was materialized from some feed entry, its dedup key being that entry's
`link` value whenever the `link` key is present (even when empty) and a
generated identifier exactly when the key is absent. -/
theorem pipeline_dedup_key_source (gen : Nat → String) (window : Option Nat)
    (today : Int) (now : String) (companies : List Company)
    (entries : List Entry) (st : PipeState) :
    ∀ a ∈ (runPipeline gen window today now companies entries st).alerts,
      a ∈ st.alerts ∨ ∃ e, e ∈ entries ∧
        (e.link = some a.api_entry_id ∨
          (e.link = none ∧ ∃ n, a.api_entry_id = gen n)) := by
  unfold runPipeline
  refine foldl_preserves _
    (fun s => ∀ a ∈ s.alerts, a ∈ st.alerts ∨ ∃ e, e ∈ entries ∧
      (e.link = some a.api_entry_id ∨
        (e.link = none ∧ ∃ n, a.api_entry_id = gen n)))
    ?_ companies st (fun a ha => Or.inl ha)
  intro st1 c h1
  refine foldl_preserves _
    (fun s => ∀ a ∈ s.alerts, a ∈ st.alerts ∨ ∃ e, e ∈ entries ∧
      (e.link = some a.api_entry_id ∨
        (e.link = none ∧ ∃ n, a.api_entry_id = gen n)))
    ?_ c.keywords st1 h1
  intro st2 kw h2
  refine foldl_preserves_mem _
    (fun s => ∀ a ∈ s.alerts, a ∈ st.alerts ∨ ∃ e, e ∈ entries ∧
      (e.link = some a.api_entry_id ∨
        (e.link = none ∧ ∃ n, a.api_entry_id = gen n)))
    entries ?_ st2 h2
  intro st3 e he h3
  unfold processTriple
  split
  · exact h3
  · split
    · split
      · exact h3
      · intro a ha
        simp only [List.mem_append, List.mem_singleton] at ha
        rcases ha with ha | ha
        · exact h3 a ha
        · subst ha
          right
          refine ⟨e, he, ?_⟩
          cases hl : e.link with
          | some l =>
            left
            simp [mkNewAlert, entryIdentifier, hl]
          | none =>
            right
            exact ⟨rfl, st3.ctr, by simp [mkNewAlert, entryIdentifier, hl]⟩
    · exact h3

theorem pipeline_dedup_key_source_witness :
    (mkNewAlert demoGen 0 demoCompany "acme" demoEntryLinked "t0" ∈
        (runPipeline demoGen none 0 "t0" [demoCompany] [demoEntryLinked]
          { alerts := [], ctr := 0, newCount := 0 }).alerts) ∧
      (mkNewAlert demoGen 0 demoCompany "acme" demoEntryLinked "t0" ∈ ([] : List Alert) ∨
        ∃ e, e ∈ [demoEntryLinked] ∧
          (e.link = some (mkNewAlert demoGen 0 demoCompany "acme" demoEntryLinked "t0").api_entry_id ∨
            (e.link = none ∧ ∃ n,
              (mkNewAlert demoGen 0 demoCompany "acme" demoEntryLinked "t0").api_entry_id = demoGen n))) :=
  ⟨by decide,
   pipeline_dedup_key_source demoGen none 0 "t0" [demoCompany] [demoEntryLinked]
     { alerts := [], ctr := 0, newCount := 0 }
     (mkNewAlert demoGen 0 demoCompany "acme" demoEntryLinked "t0") (by decide)⟩

/-- **C2** (counterexample) — an entry whose `link` key is present but
empty: the materialized alert's dedup key is the empty string, not a
generated identifier (the run drew at most the identifiers of indices
0 and 1). -/
theorem dedup_key_empty_link_counterexample :
    ((runPipeline demoGen none 0 "t0" [demoCompany] [demoEntryEmptyLink]
        { alerts := [], ctr := 0, newCount := 0 }).alerts.map
          (fun a => a.api_entry_id) = [""]) ∧
      demoEntryEmptyLink.link = some "" ∧
      demoGen 0 ≠ "" ∧ demoGen 1 ≠ "" := by
  decide

theorem iterRuns_nodup_triples_witness :
    NodupTriples ([] : List Alert) ∧
      NodupTriples (iterRuns demoGen none 0 "t0" [demoCompany]
        [demoEntryLinked] 2 { alerts := [], ctr := 0, newCount := 0 }).alerts :=
  ⟨List.Pairwise.nil,
   (iterRuns_nodup_triples demoGen none 0 "t0" [demoCompany] [demoEntryLinked] 2
     { alerts := [], ctr := 0, newCount := 0 } List.Pairwise.nil).1⟩

/-! ### Bulk status update -/

theorem bulkSetStatus_go (selectedIds : List String) (newStatus : String) :
    ∀ (l : List Alert) (acc : List Alert × Nat),
      l.foldl
          (fun acc a =>
            if selectedIds.contains a.id then
              (acc.1 ++ [{ a with status := newStatus }], acc.2 + 1)
            else (acc.1 ++ [a], acc.2)) acc =
        (acc.1 ++ l.map (fun a =>
            if selectedIds.contains a.id then { a with status := newStatus } else a),
          acc.2 + (l.filter (fun a => selectedIds.contains a.id)).length) := by
  intro l
  induction l with
  | nil => intro acc; simp
  | cons a l ih =>
    intro acc
    by_cases h : selectedIds.contains a.id = true
    · simp only [List.foldl_cons, if_pos h, ih, List.map_cons, List.filter_cons, h,
        if_true, List.length_cons, List.cons_append, List.append_assoc,
        List.singleton_append, Prod.mk.injEq]
      exact ⟨rfl, by omega⟩
    · simp only [List.foldl_cons, if_neg h, ih, List.map_cons, List.filter_cons,
        Bool.not_eq_true] at h ⊢
      simp [h, List.append_assoc]

/-- **C8** — the bulk update sets the status of exactly those alerts
whose id is among the requested ids, reports how many alerts it
touched, changes no other field (the update is a field-preserving map
over the collection), and produces the same result when requested ids
matching no alert are discarded beforehand. -/
theorem bulkSetStatus_characterization (alerts : List Alert)
    (selectedIds : List String) (newStatus : String) :
    (bulkSetStatus alerts selectedIds newStatus).1 =
        alerts.map (fun a =>
          if selectedIds.contains a.id then { a with status := newStatus } else a) ∧
      (bulkSetStatus alerts selectedIds newStatus).2 =
        (alerts.filter (fun a => selectedIds.contains a.id)).length ∧
      bulkSetStatus alerts
          (selectedIds.filter (fun i => alerts.any (fun a => a.id == i))) newStatus =
        bulkSetStatus alerts selectedIds newStatus := by
  have hmem : ∀ a ∈ alerts,
      ((selectedIds.filter (fun i => alerts.any (fun a2 => a2.id == i))).contains a.id) =
        (selectedIds.contains a.id) := by
    intro a ha
    simp only [List.contains, List.elem_eq_mem, List.mem_filter, List.any_eq_true,
      beq_iff_eq, decide_eq_decide]
    constructor
    · exact fun h => h.1
    · exact fun h => ⟨h, a, ha, rfl⟩
  refine ⟨?_, ?_, ?_⟩
  · rw [bulkSetStatus, bulkSetStatus_go]
    simp
  · rw [bulkSetStatus, bulkSetStatus_go]
    simp
  · rw [bulkSetStatus, bulkSetStatus, bulkSetStatus_go, bulkSetStatus_go]
    rw [List.map_congr_left (fun a ha => by rw [hmem a ha]),
      List.filter_congr (fun a ha => by rw [hmem a ha])]

/-! ### Company removal -/

/-- **C1** (code bug) — deleting `demoCompany` removes its alert
`demoAlertA1` (and no others), but the selection-state entry keyed by
the removed alert id `"a1"` survives: the pruning comprehension tests
against the already-filtered alert list and therefore never drops
anything. -/
theorem cascade_delete_keeps_selection_entry :
    removeCompanyAt
        { companies := [demoCompany], alerts := [demoAlertA1],
          selected := [("a1", true)] } 0 =
      { companies := [], alerts := [], selected := [("a1", true)] } ∧
      demoAlertA1.company_id = demoCompany.id ∧ demoAlertA1.id = "a1" := by
  decide

/-! ### Company creation -/

theorem mergedKeywords_sorted (manualKw : String) (csvKw : List String) :
    (mergedKeywords manualKw csvKw).Sorted (fun a b : String => a ≤ b) :=
  List.sorted_insertionSort _ _

theorem mergedKeywords_nodup (manualKw : String) (csvKw : List String) :
    (mergedKeywords manualKw csvKw).Nodup :=
  ((List.perm_insertionSort _ _).nodup_iff).mpr (List.nodup_dedup _)

theorem mergedKeywords_mem (manualKw : String) (csvKw : List String) (x : String) :
    x ∈ mergedKeywords manualKw csvKw ↔
      x ∈ splitKeywords manualKw ++ cleanKeywords csvKw := by
  rw [mergedKeywords, sortedDedup, (List.perm_insertionSort _ _).mem_iff,
    List.mem_dedup]

/-- **C7** — the add-company form rejects (leaving the registry as it
was and skipping the save) exactly when the name is empty, the merged
keyword set is empty, or the name collides case-insensitively with an
existing company; otherwise it appends the company with the supplied
fresh id and the sorted, deduplicated merged keyword set, and saves. -/
theorem addCompany_characterization (companies : List Company)
    (genId name description manualKw : String) (csvKw : List String) :
    (((addCompany companies genId name description manualKw csvKw).ok = false ∧
        (addCompany companies genId name description manualKw csvKw).companies = companies ∧
        (addCompany companies genId name description manualKw csvKw).saved = false) ↔
      (name = "" ∨ mergedKeywords manualKw csvKw = [] ∨
        ∃ c, c ∈ companies ∧ pyLower c.name = pyLower name)) ∧
    ((addCompany companies genId name description manualKw csvKw).ok = true ↔
      ((addCompany companies genId name description manualKw csvKw).companies =
          companies ++
            [{ id := genId, name := name, description := description,
               keywords := mergedKeywords manualKw csvKw }] ∧
        (addCompany companies genId name description manualKw csvKw).saved = true)) ∧
    (mergedKeywords manualKw csvKw).Sorted (fun a b : String => a ≤ b) ∧
    (mergedKeywords manualKw csvKw).Nodup ∧
    (∀ x, x ∈ mergedKeywords manualKw csvKw ↔
      x ∈ splitKeywords manualKw ++ cleanKeywords csvKw) := by
  refine ⟨?_, ?_, mergedKeywords_sorted manualKw csvKw,
    mergedKeywords_nodup manualKw csvKw, mergedKeywords_mem manualKw csvKw⟩
  · by_cases h1 : name = ""
    · simp [addCompany, h1]
    · by_cases h2 : mergedKeywords manualKw csvKw = []
      · simp [addCompany, h1, h2]
      · by_cases h3 : companies.any (fun c => pyLower c.name == pyLower name) = true
        · rw [List.any_eq_true] at h3
          obtain ⟨c, hc, hbeq⟩ := h3
          have hcol : ∃ c, c ∈ companies ∧ pyLower c.name = pyLower name :=
            ⟨c, hc, beq_iff_eq.mp hbeq⟩
          simp only [addCompany, if_neg h1, if_neg h2, List.any_eq_true]
          rw [if_pos ⟨c, hc, hbeq⟩]
          simp [h1, h2, hcol]
        · have hnocol : ¬ ∃ c, c ∈ companies ∧ pyLower c.name = pyLower name := by
            rintro ⟨c, hc, heq⟩
            exact h3 (List.any_eq_true.mpr ⟨c, hc, beq_iff_eq.mpr heq⟩)
          simp only [addCompany, if_neg h1, if_neg h2, if_neg h3]
          simp [h1, h2, hnocol]
  · by_cases h1 : name = ""
    · simp [addCompany, h1]
    · by_cases h2 : mergedKeywords manualKw csvKw = []
      · simp [addCompany, h1, h2]
      · by_cases h3 : companies.any (fun c => pyLower c.name == pyLower name) = true
        · simp only [addCompany, if_neg h1, if_neg h2, if_pos h3]
          simp
        · simp only [addCompany, if_neg h1, if_neg h2, if_neg h3]
          simp

/-! ### The alert display sort -/

theorem orderedInsert_lex_sorted (x : Alert) :
    ∀ M : List Alert, List.Sorted alertDisplayLe M →
      (∀ y ∈ M, y.timestamp ≤ x.timestamp) →
      List.Sorted alertDisplayLe (List.orderedInsert statusLe x M) := by
  intro M
  induction M with
  | nil =>
    intro _ _
    simp [List.orderedInsert, List.sorted_singleton]
  | cons b M2 ih =>
    intro hs hts
    rw [List.orderedInsert]
    by_cases h : statusLe x b
    · rw [if_pos h]
      rw [List.sorted_cons]
      refine ⟨?_, hs⟩
      intro z hz
      have hxb : status_order x.status ≤ status_order b.status := h
      have hrank : status_order x.status ≤ status_order z.status := by
        rcases List.mem_cons.mp hz with rfl | hz2
        · exact hxb
        · rcases (List.sorted_cons.mp hs).1 z hz2 with hlt | ⟨heq, _⟩
          · exact le_trans hxb (le_of_lt hlt)
          · exact le_trans hxb (le_of_eq heq)
      rcases lt_or_eq_of_le hrank with hlt | heq
      · exact Or.inl hlt
      · exact Or.inr ⟨heq, hts z hz⟩
    · rw [if_neg h]
      have hlt : status_order b.status < status_order x.status :=
        Nat.lt_of_not_le h
      rw [List.sorted_cons]
      constructor
      · intro z hz
        rcases (List.mem_orderedInsert statusLe).mp hz with rfl | hz2
        · exact Or.inl hlt
        · exact (List.sorted_cons.mp hs).1 z hz2
      · exact ih (List.sorted_cons.mp hs).2
          (fun y hy => hts y (List.mem_cons_of_mem _ hy))

theorem insertionSort_status_lex (l : List Alert)
    (hl : List.Sorted timestampGe l) :
    List.Sorted alertDisplayLe (List.insertionSort statusLe l) := by
  induction l with
  | nil => simp [List.insertionSort]
  | cons x xs ih =>
    rw [List.insertionSort]
    apply orderedInsert_lex_sorted
    · exact ih (List.sorted_cons.mp hl).2
    · intro y hy
      exact (List.sorted_cons.mp hl).1 y
        ((List.perm_insertionSort statusLe xs).mem_iff.mp hy)

/-- **C6** — the displayed order is a permutation of the alert
collection, sorted primarily by status rank (`Open`, `In Progress`,
`Complete`, `False Positive`, in that order, any other status value
after all four) and secondarily by detection timestamp descending
within equal rank. -/
theorem alertSort_characterization (alerts : List Alert) :
    (sortedAlertsAll alerts).Perm alerts ∧
      List.Sorted alertDisplayLe (sortedAlertsAll alerts) ∧
      status_order "Open" < status_order "In Progress" ∧
      status_order "In Progress" < status_order "Complete" ∧
      status_order "Complete" < status_order "False Positive" ∧
      ∀ s : String, s = "Open" ∨ s = "In Progress" ∨ s = "Complete" ∨
        s = "False Positive" ∨ status_order "False Positive" < status_order s := by
  refine ⟨?_, ?_, by decide, by decide, by decide, ?_⟩
  · exact (List.perm_insertionSort statusLe _).trans
      (List.perm_insertionSort timestampGe alerts)
  · exact insertionSort_status_lex _ (List.sorted_insertionSort timestampGe alerts)
  · intro s
    by_cases h1 : s = "Open"
    · exact Or.inl h1
    by_cases h2 : s = "In Progress"
    · exact Or.inr (Or.inl h2)
    by_cases h3 : s = "Complete"
    · exact Or.inr (Or.inr (Or.inl h3))
    by_cases h4 : s = "False Positive"
    · exact Or.inr (Or.inr (Or.inr (Or.inl h4)))
    refine Or.inr (Or.inr (Or.inr (Or.inr ?_)))
    simp [status_order, h1, h2, h3, h4]

/-! ### Fetch failure handling -/

theorem string_data_append (s t : String) : (s ++ t).data = s.data ++ t.data := by
  cases s
  cases t
  rfl

theorem append_ne_of_prefix_ne (p q s t : String)
    (hlen : p.data.length = q.data.length) (hne : p ≠ q) : p ++ s ≠ q ++ t := by
  intro h
  apply hne
  have hd := congrArg String.data h
  rw [string_data_append, string_data_append] at hd
  exact String.ext (List.append_inj_left hd hlen)

theorem renderHttp_split (code : Nat) (body : String) :
    renderFetchErr (.httpError code body) =
      "HTTP er" ++
        ("ror occurred while fetching data from API. Status Code: " ++
          (toString code ++ (". Response text (first 500 chars): " ++ body))) := by
  show "HTTP error occurred while fetching data from API. Status Code: " ++
      toString code ++ ". Response text (first 500 chars): " ++ body = _
  rw [String.append_assoc, String.append_assoc,
    show ("HTTP error occurred while fetching data from API. Status Code: " : String) =
      "HTTP er" ++ "ror occurred while fetching data from API. Status Code: " from by decide,
    String.append_assoc]

theorem renderTimeout_split :
    renderFetchErr .timeout =
      "The req" ++
        "uest to the ransomware.live API timed out. The API might be slow or temporarily unavailable. Please try again later." := by
  decide

theorem renderReqExc_split (m : String) :
    renderFetchErr (.requestException m) =
      "Error f" ++ ("etching data from API (RequestException): " ++ m) := by
  show "Error fetching data from API (RequestException): " ++ m = _
  rw [show ("Error fetching data from API (RequestException): " : String) =
      "Error f" ++ "etching data from API (RequestException): " from by decide,
    String.append_assoc]

theorem renderJson_split (m : String) (r : Option (Nat × String)) :
    renderFetchErr (.jsonDecodeError m r) =
      "Error d" ++
        ("ecoding API response (JSONDecodeError): " ++
          (m ++ (". " ++ jsonRespText r))) := by
  show "Error decoding API response (JSONDecodeError): " ++ m ++ ". " ++
      jsonRespText r = _
  rw [String.append_assoc, String.append_assoc,
    show ("Error decoding API response (JSONDecodeError): " : String) =
      "Error d" ++ "ecoding API response (JSONDecodeError): " from by decide,
    String.append_assoc]

/-- **C9** — when the fetch fails with any of the four fetch errors,
the handler leaves the company registry and the alert collection
exactly as they were and returns the variant's displayable message;
the four variants render pairwise distinct messages for every
payload. -/
theorem fetch_error_atomicity (gen : Nat → String) (window : Option Nat)
    (today : Int) (now : String) (companies : List Company)
    (alerts : List Alert) (ctr0 : Nat) (e : FetchErr) :
    handleFetch gen window today now companies alerts ctr0 (.error e) =
        (companies, alerts, some (renderFetchErr e)) ∧
      (∀ code body, renderFetchErr (.httpError code body) ≠ renderFetchErr .timeout) ∧
      (∀ code body m, renderFetchErr (.httpError code body) ≠
        renderFetchErr (.requestException m)) ∧
      (∀ code body m r, renderFetchErr (.httpError code body) ≠
        renderFetchErr (.jsonDecodeError m r)) ∧
      (∀ m, renderFetchErr .timeout ≠ renderFetchErr (.requestException m)) ∧
      (∀ m r, renderFetchErr .timeout ≠ renderFetchErr (.jsonDecodeError m r)) ∧
      (∀ m m2 r, renderFetchErr (.requestException m) ≠
        renderFetchErr (.jsonDecodeError m2 r)) := by
  refine ⟨rfl, ?_, ?_, ?_, ?_, ?_, ?_⟩
  · intro code body
    rw [renderHttp_split, renderTimeout_split]
    exact append_ne_of_prefix_ne _ _ _ _ (by decide) (by decide)
  · intro code body m
    rw [renderHttp_split, renderReqExc_split]
    exact append_ne_of_prefix_ne _ _ _ _ (by decide) (by decide)
  · intro code body m r
    rw [renderHttp_split, renderJson_split]
    exact append_ne_of_prefix_ne _ _ _ _ (by decide) (by decide)
  · intro m
    rw [renderTimeout_split, renderReqExc_split]
    exact append_ne_of_prefix_ne _ _ _ _ (by decide) (by decide)
  · intro m r
    rw [renderTimeout_split, renderJson_split]
    exact append_ne_of_prefix_ne _ _ _ _ (by decide) (by decide)
  · intro m m2 r
    rw [renderReqExc_split, renderJson_split]
    exact append_ne_of_prefix_ne _ _ _ _ (by decide) (by decide)

theorem fetch_error_atomicity_witness :
    handleFetch demoGen none 0 "t0" [demoCompany] [demoAlertA1] 0
        (.error .timeout) =
      ([demoCompany], [demoAlertA1], some (renderFetchErr .timeout)) :=
  (fetch_error_atomicity demoGen none 0 "t0" [demoCompany] [demoAlertA1] 0
    .timeout).1

end RansomMon
